import Mathlib

/-!
Shallow embedding of the alert evaluation and acknowledgment engine of the
Medical Inventory App (src/pages/alerts.py, with the store contract from
src/database.py).

Modelling conventions:
* Dates are integers (days since an arbitrary epoch); `today` stands for
  `datetime.now().date()` and is passed explicitly to every operation that
  reads the clock.  Timestamps written into the acknowledgment map are
  opaque strings (`datetime.now().isoformat()` is passed as a parameter).
* SQL rows fetched by the expiry queries are 6-tuples of dynamically typed
  values (`PyVal`), mirroring the positional tuple indexing `item[0]` ..
  `item[5]` of the Python source, including its dynamic type errors:
  subtracting a non-date raises, which is modelled with `Except`.  The
  `except` handler of `check_expiry_alerts` returns `[]`, exactly as in the
  source.
* The JSONB `acknowledged_alerts` column is an association list; the
  PostgreSQL `||` object concatenation keeps every key of both operands and
  takes, on key conflicts, the value of the right operand; the operator
  written as question mark is key
  membership; SQL comparisons against a NULL date are not true.
* Connections: psycopg2 runs every statement inside a transaction; an
  operation that closes its connection without `commit()` discards its
  pending writes.  Each engine operation below therefore produces the list
  of write statements it executes together with the commit decision of the
  source, and the resulting store state applies the writes only on commit.
-/

/-- A dynamically typed value, as it appears in a fetched SQL row. -/
inductive PyVal where
  | vInt : Int → PyVal
  | vStr : String → PyVal
  | vDate : Int → PyVal
  | vNone : PyVal
deriving DecidableEq, Repr

/-- Python string interpolation of a fetched value (used for alert ids). -/
def pyStr : PyVal → String
  | .vInt n => toString n
  | .vStr s => s
  | .vDate d => toString d
  | .vNone => "None"

/-- The JSONB object stored in the acknowledged_alerts column. -/
abbrev JsonbMap := List (String × String)

/-- PostgreSQL jsonb `? key` operator: key membership. -/
def jsonbHasKey (m : JsonbMap) (k : String) : Bool :=
  m.any (fun p => p.1 == k)

/-- PostgreSQL jsonb `||` object concatenation: all keys of both operands,
right operand wins on a key conflict. -/
def jsonbConcat (a b : JsonbMap) : JsonbMap :=
  a.filter (fun p => !(jsonbHasKey b p.1)) ++ b

/-- An inventory row, restricted to the columns the alert engine touches
(src/database.py declares the full table; acknowledged_alerts is the JSONB
map read and written only by the alert engine). -/
structure InventoryRecord where
  id : Nat
  patient_name : String
  drug_item_name : String
  expiration_date : Option Int
  inventory_number : String
  location : String
  acknowledged_alerts : Option JsonbMap
deriving DecidableEq, Repr

/-- The alert settings blob saved by show_alert_settings; every saved blob
carries these keys (the two notification fields default to the values of
get_default_alert_settings when email notifications are disabled). -/
structure AlertSettings where
  expiry_warning_days : Int
  expiry_critical_days : Int
  low_stock_threshold : Int
  enable_stock_alerts : Bool
  enable_email_notifications : Bool
  notification_recipients : String
  notification_frequency : String
deriving DecidableEq, Repr

/-- get_default_alert_settings (src/pages/alerts.py:582). -/
def get_default_alert_settings : AlertSettings :=
  { expiry_warning_days := 30
    expiry_critical_days := 7
    low_stock_threshold := 5
    enable_stock_alerts := true
    enable_email_notifications := false
    notification_recipients := ""
    notification_frequency := "Daily" }

/-- The persistent store state: the inventory table, whether the
alert_settings table exists, and the append-only settings log (latest row
last; get_alert_settings orders by updated_at DESC and takes the first). -/
structure DBState where
  inventory : List InventoryRecord
  settingsTableExists : Bool
  settingsLog : List (AlertSettings × String)
deriving DecidableEq, Repr

/-- One alert dictionary as built by check_expiry_alerts /
check_stock_alerts.  Row-derived fields keep the dynamic `PyVal` type
because the expired branch of the source mis-indexes its row tuple.
The created_at wall-clock field is omitted (never read by any caller). -/
structure Alert where
  id : String
  record_id : PyVal
  alert_type : String
  severity : String
  patient_name : PyVal
  item_name : PyVal
  expiry_date : PyVal
  inventory_number : PyVal
  location : PyVal
  message : String
  days_until_expiry : Option Int
  stock_count : Option Int
deriving DecidableEq, Repr

/-- A row of `SELECT id, patient_name, drug_item_name, expiration_date,
inventory_number, location FROM inventory`, with positional access c0..c5
mirroring item[0]..item[5]. -/
structure ExpiryRow where
  c0 : PyVal
  c1 : PyVal
  c2 : PyVal
  c3 : PyVal
  c4 : PyVal
  c5 : PyVal
deriving DecidableEq, Repr

/-- Build the fetched tuple for one inventory record. -/
def toExpiryRow (r : InventoryRecord) : ExpiryRow :=
  { c0 := .vInt r.id
    c1 := .vStr r.patient_name
    c2 := .vStr r.drug_item_name
    c3 := match r.expiration_date with
          | some d => .vDate d
          | none => .vNone
    c4 := .vStr r.inventory_number
    c5 := .vStr r.location }

/-- `(datetime.now().date() - v).days`: date minus value; a non-date right
operand raises TypeError. -/
def dateSubFromToday (today : Int) (v : PyVal) : Except String Int :=
  match v with
  | .vDate d => .ok (today - d)
  | _ => .error "TypeError: unsupported operand for date subtraction"

/-- `(v - datetime.now().date()).days`: value minus date; a non-date left
operand raises TypeError. -/
def subDateToday (v : PyVal) (today : Int) : Except String Int :=
  match v with
  | .vDate d => .ok (d - today)
  | _ => .error "TypeError: unsupported operand for date subtraction"

/-- Sequential effectful loop over a fetched row list: the first raised
exception aborts the whole traversal (the Python for-loop inside try). -/
def mapME (f : α → Except String β) : List α → Except String (List β)
  | [] => .ok []
  | a :: as =>
    match f a with
    | .error e => .error e
    | .ok b =>
      match mapME f as with
      | .error e => .error e
      | .ok bs => .ok (b :: bs)

/-- `acknowledged_alerts IS NULL OR NOT (acknowledged_alerts ? k)`. -/
def ackNotContains (r : InventoryRecord) (k : String) : Bool :=
  match r.acknowledged_alerts with
  | none => true
  | some m => !(jsonbHasKey m k)

/-- WHERE clause of the expired-items query (alerts.py:167):
`expiration_date < CURRENT_DATE` (not true on NULL) and no "expired" key. -/
def expiredPred (today : Int) (r : InventoryRecord) : Bool :=
  (match r.expiration_date with
   | some d => decide (d < today)
   | none => false) && ackNotContains r "expired"

/-- Rows fetched by the expired-items query. -/
def expiredQuery (today : Int) (inv : List InventoryRecord) : List InventoryRecord :=
  inv.filter (expiredPred today)

/-- WHERE clause of the critical expiry query (alerts.py:194):
`expiration_date <= critical_date AND expiration_date >= CURRENT_DATE`
and no "expiring_critical" key. -/
def criticalPred (today critical_date : Int) (r : InventoryRecord) : Bool :=
  (match r.expiration_date with
   | some d => decide (d ≤ critical_date) && decide (today ≤ d)
   | none => false) && ackNotContains r "expiring_critical"

/-- Rows fetched by the critical expiry query. -/
def criticalQuery (today critical_date : Int) (inv : List InventoryRecord) : List InventoryRecord :=
  inv.filter (criticalPred today critical_date)

/-- WHERE clause of the warning expiry query (alerts.py:221):
`expiration_date <= warning_date AND expiration_date > critical_date`
and no "expiring_warning" key. -/
def warningPred (critical_date warning_date : Int) (r : InventoryRecord) : Bool :=
  (match r.expiration_date with
   | some d => decide (d ≤ warning_date) && decide (critical_date < d)
   | none => false) && ackNotContains r "expiring_warning"

/-- Rows fetched by the warning expiry query. -/
def warningQuery (critical_date warning_date : Int) (inv : List InventoryRecord) : List InventoryRecord :=
  inv.filter (warningPred critical_date warning_date)

/-- Loop body for expired items (alerts.py:176-191).  The source computes
`days_expired = (datetime.now().date() - item[2]).days`, but item[2] is
drug_item_name (a string): the subtraction raises.  The remaining fields
reproduce the shifted tuple indices of the source verbatim. -/
def mkExpiredAlert (today : Int) (item : ExpiryRow) : Except String Alert :=
  match dateSubFromToday today item.c2 with
  | .error e => .error e
  | .ok days_expired =>
    .ok { id := "expired_" ++ pyStr item.c0
          record_id := item.c0
          alert_type := "Expired"
          severity := "Critical"
          patient_name := item.c1
          item_name := item.c2
          expiry_date := item.c2
          inventory_number := item.c3
          location := item.c4
          message := "Item expired " ++ toString days_expired ++ " days ago"
          days_until_expiry := some (-days_expired)
          stock_count := none }

/-- Loop body for critically expiring items (alerts.py:203-218). -/
def mkCriticalAlert (today : Int) (item : ExpiryRow) : Except String Alert :=
  match subDateToday item.c3 today with
  | .error e => .error e
  | .ok days_until_expiry =>
    .ok { id := "expiring_critical_" ++ pyStr item.c0
          record_id := item.c0
          alert_type := "Expiring Soon"
          severity := "Critical"
          patient_name := item.c1
          item_name := item.c2
          expiry_date := item.c3
          inventory_number := item.c4
          location := item.c5
          message := "Expires in " ++ toString days_until_expiry ++ " days"
          days_until_expiry := some days_until_expiry
          stock_count := none }

/-- Loop body for warning-window expiring items (alerts.py:230-245). -/
def mkWarningAlert (today : Int) (item : ExpiryRow) : Except String Alert :=
  match subDateToday item.c3 today with
  | .error e => .error e
  | .ok days_until_expiry =>
    .ok { id := "expiring_warning_" ++ pyStr item.c0
          record_id := item.c0
          alert_type := "Expiring Soon"
          severity := "Warning"
          patient_name := item.c1
          item_name := item.c2
          expiry_date := item.c3
          inventory_number := item.c4
          location := item.c5
          message := "Expires in " ++ toString days_until_expiry ++ " days"
          days_until_expiry := some days_until_expiry
          stock_count := none }

/-- Body of the try-block of check_expiry_alerts (alerts.py:154-247):
three queries processed in order into one alert list; any raised
exception aborts with the error. -/
def check_expiry_alertsE (today : Int) (settings : AlertSettings)
    (inv : List InventoryRecord) : Except String (List Alert) :=
  let warning_days := settings.expiry_warning_days
  let critical_days := settings.expiry_critical_days
  let warning_date := today + warning_days
  let critical_date := today + critical_days
  match mapME (mkExpiredAlert today) ((expiredQuery today inv).map toExpiryRow) with
  | .error e => .error e
  | .ok expired =>
    match mapME (mkCriticalAlert today) ((criticalQuery today critical_date inv).map toExpiryRow) with
    | .error e => .error e
    | .ok crit =>
      match mapME (mkWarningAlert today) ((warningQuery critical_date warning_date inv).map toExpiryRow) with
      | .error e => .error e
      | .ok warn => .ok (expired ++ crit ++ warn)

/-- check_expiry_alerts: the except-handler returns [] on any exception. -/
def check_expiry_alerts (today : Int) (settings : AlertSettings)
    (inv : List InventoryRecord) : List Alert :=
  match check_expiry_alertsE today settings inv with
  | .ok l => l
  | .error _ => []

/-- `WHERE expiration_date >= CURRENT_DATE` of the stock query
(alerts.py:268); not true on a NULL date. -/
def nonExpiredRecords (today : Int) (inv : List InventoryRecord) : List InventoryRecord :=
  inv.filter (fun r =>
    match r.expiration_date with
    | some d => decide (today ≤ d)
    | none => false)

/-- The distinct (drug_item_name, location) group keys of the non-expired
rows (SQL GROUP BY yields each group exactly once; it fixes no order, so the
order of List.dedup is as good as any). -/
def distinctKeys (l : List (String × String)) : List (String × String) :=
  l.dedup

/-- `COUNT(*)` of one (drug_item_name, location) group of non-expired rows. -/
def groupCount (today : Int) (inv : List InventoryRecord) (drug loc : String) : Nat :=
  ((nonExpiredRecords today inv).filter
    (fun r => r.drug_item_name == drug && r.location == loc)).length

/-- Python `str.replace(' ', '_')` for a single-character pattern. -/
def replaceSpaces (s : String) : String :=
  String.mk (s.data.map (fun c => if c = ' ' then '_' else c))

/-- Alert built for one low-stock group (alerts.py:275-294). -/
def mkStockAlert (drug_name loc : String) (stock_count : Nat) : Alert :=
  { id := replaceSpaces ("stock_" ++ drug_name ++ "_" ++ loc)
    record_id := .vNone
    alert_type := if stock_count = 0 then "Out of Stock" else "Low Stock"
    severity := if stock_count = 0 then "Critical"
                else if stock_count ≤ 2 then "Warning" else "Info"
    patient_name := .vStr "Multiple Patients"
    item_name := .vStr drug_name
    expiry_date := .vNone
    inventory_number := .vStr "Multiple"
    location := .vStr loc
    message := if stock_count > 0
               then "Only " ++ toString stock_count ++ " items remaining"
               else "Out of stock"
    days_until_expiry := none
    stock_count := some (stock_count : Int) }

/-- check_stock_alerts (alerts.py:253-300): group the non-expired rows by
(drug_item_name, location), keep groups with COUNT(*) <= low_stock_threshold
and emit one alert per group.  Note the source never consults
settings.enable_stock_alerts. -/
def check_stock_alerts (today : Int) (settings : AlertSettings)
    (inv : List InventoryRecord) : List Alert :=
  let low_stock_threshold := settings.low_stock_threshold
  let rows := nonExpiredRecords today inv
  let keys := distinctKeys (rows.map (fun r => (r.drug_item_name, r.location)))
  let groups := keys.map (fun k => (k.1, k.2, groupCount today inv k.1 k.2))
  let low := groups.filter (fun g => decide ((g.2.2 : Int) ≤ low_stock_threshold))
  low.map (fun g => mkStockAlert g.1 g.2.1 g.2.2)

/-- A write statement issued over a connection. -/
inductive SqlWrite where
  | createSettingsTable : SqlWrite
  | insertSettingsRow : AlertSettings → String → SqlWrite
  | mergeAck : Nat → String → String → SqlWrite
deriving DecidableEq, Repr

/-- Apply one committed write statement to the store. -/
def applyWrite (st : DBState) : SqlWrite → DBState
  | .createSettingsTable => { st with settingsTableExists := true }
  | .insertSettingsRow s u => { st with settingsLog := st.settingsLog ++ [(s, u)] }
  | .mergeAck rid key ts =>
    { st with inventory := st.inventory.map (fun r =>
        if r.id = rid then
          { r with
            acknowledged_alerts := some (jsonbConcat (r.acknowledged_alerts.getD []) [(key, ts)]) }
        else r) }

/-- Apply a list of writes in order. -/
def applyWrites (st : DBState) (ws : List SqlWrite) : DBState :=
  ws.foldl applyWrite st

/-- End of a connection: commit applies the pending writes, closing without
commit discards them (psycopg2 transaction semantics). -/
def commitOrDiscard (st : DBState) (ws : List SqlWrite) (commit : Bool) : DBState :=
  if commit then applyWrites st ws else st

/-- get_alert_settings (alerts.py:541-580): on its own connection it issues
CREATE TABLE IF NOT EXISTS alert_settings, selects the most recent settings
row (or falls back to get_default_alert_settings), then closes the
connection WITHOUT commit, so the pending DDL is discarded.  Returns the
settings together with the resulting store state. -/
def get_alert_settings_run (st : DBState) : AlertSettings × DBState :=
  let pending := [SqlWrite.createSettingsTable]
  let txnView := applyWrites st pending
  let result := match txnView.settingsLog.getLast? with
    | some (s, _) => s
    | none => get_default_alert_settings
  (result, commitOrDiscard st pending false)

/-- The settings value get_alert_settings returns. -/
def get_alert_settings (st : DBState) : AlertSettings :=
  (get_alert_settings_run st).1

/-- save_alert_settings (alerts.py:594-620): INSERT a new settings row and
commit; if the alert_settings table does not exist the insert raises, the
handler rolls back and returns False. -/
def save_alert_settings_run (st : DBState) (s : AlertSettings) (user : String) :
    Bool × DBState :=
  if st.settingsTableExists then
    (true, commitOrDiscard st [SqlWrite.insertSettingsRow s user] true)
  else
    (false, st)

/-- Python `alert_id.split('_', 1)` restricted to the guard
`'_' in alert_id`: none when there is no underscore, otherwise the parts
before and after the FIRST underscore. -/
def splitFirstUnderscore : List Char → Option (List Char × List Char)
  | [] => none
  | c :: cs =>
    if c = '_' then some ([], cs)
    else match splitFirstUnderscore cs with
         | none => none
         | some (a, b) => some (c :: a, b)

/-- Python `str.isdigit()`: nonempty and all digits. -/
def pyIsdigit (cs : List Char) : Bool :=
  !cs.isEmpty && cs.all (fun c => c.isDigit)

/-- Python `int(s)` for an all-digit string. -/
def natOfDigits (cs : List Char) : Nat :=
  cs.foldl (fun n c => 10 * n + (c.toNat - 48)) 0

/-- The id parsing of acknowledge_alerts (alerts.py:632-636): requires an
underscore, splits at the first one, and requires the remainder to be all
digits.  Yields the alert class prefix and the record id. -/
def parseAckId (aid : String) : Option (String × Nat) :=
  match splitFirstUnderscore aid.data with
  | none => none
  | some (pre, post) =>
    if pyIsdigit post then some (String.mk pre, natOfDigits post) else none

/-- acknowledge_alerts (alerts.py:622-656): for every parsable id, merge
the singleton map from the key alert_type plus _acknowledged to the
timestamp into the acknowledged_alerts of that record, via COALESCE with
the empty jsonb object followed by jsonb concatenation; unparsable ids are
silently skipped; the batch is committed and True is returned (the return
value carries no information about skipped ids). -/
def acknowledge_alerts (st : DBState) (alert_ids : List String) (ts : String) :
    Bool × DBState :=
  let writes := alert_ids.filterMap (fun aid =>
    (parseAckId aid).map (fun p => SqlWrite.mergeAck p.2 (p.1 ++ "_acknowledged") ts))
  (true, commitOrDiscard st writes true)

/-- get_current_alerts (alerts.py:121-152): read the current settings (on a
connection of its own), run the expiry and stock checks over the inventory,
and close without commit; the store state is returned unchanged alongside
the alert list. -/
def get_current_alerts_run (today : Int) (st : DBState) : List Alert × DBState :=
  let p := get_alert_settings_run st
  (check_expiry_alerts today p.1 st.inventory
     ++ check_stock_alerts today p.1 st.inventory,
   p.2)

/-- The alert list produced by get_current_alerts. -/
def get_current_alerts (today : Int) (st : DBState) : List Alert :=
  (get_current_alerts_run today st).1

/-- One engine operation, for reasoning about operation sequences. -/
inductive EngineOp where
  | evaluate : Int → EngineOp
  | acknowledge : List String → String → EngineOp
  | readSettings : EngineOp
  | saveSettings : AlertSettings → String → EngineOp
deriving DecidableEq, Repr

/-- The store-state transition of one engine operation. -/
def stepOp (st : DBState) : EngineOp → DBState
  | .evaluate today => (get_current_alerts_run today st).2
  | .acknowledge ids ts => (acknowledge_alerts st ids ts).2
  | .readSettings => (get_alert_settings_run st).2
  | .saveSettings s u => (save_alert_settings_run st s u).2

/-- Run a sequence of engine operations. -/
def runOps (st : DBState) (ops : List EngineOp) : DBState :=
  ops.foldl stepOp st

/-- The key set of the acknowledged_alerts map of a record (NULL reads as empty). -/
def ackKeys (r : InventoryRecord) : List String :=
  (r.acknowledged_alerts.getD []).map Prod.fst

/-- One rendered line item of the alert summary email body. -/
def alertLine (a : Alert) : String :=
  "- " ++ a.alert_type ++ ": " ++ pyStr a.item_name ++ " (" ++ pyStr a.patient_name
    ++ ") - " ++ a.message ++ "\n"

/-- The (subject, content) construction of send_alert_summary_email
(alerts.py:669-701), the rendering part of the function; `now` stands for
datetime.now() rendered with the strftime format %Y-%m-%d %H:%M:%S.  The
triple-quoted f-string
keeps its literal newlines and twelve-space indentation. -/
def alert_summary_content (now : String) (alerts : List Alert) : String × String :=
  let subject := "Inventory Alert Summary - " ++ toString alerts.length ++ " Active Alerts"
  if alerts.isEmpty then
    (subject, "Good news! There are currently no active inventory alerts.")
  else
    let critical_alerts := alerts.filter (fun a => a.severity == "Critical")
    let warning_alerts := alerts.filter (fun a => a.severity == "Warning")
    let content :=
      "\n            Inventory Alert Summary - " ++ now
        ++ "\n            \n            Total Active Alerts: " ++ toString alerts.length
        ++ "\n            - Critical: " ++ toString critical_alerts.length
        ++ "\n            - Warnings: " ++ toString warning_alerts.length
        ++ "\n            \n            Critical Alerts:\n            "
    let content := (critical_alerts.take 10).foldl (fun acc a => acc ++ alertLine a) content
    let content := if critical_alerts.length > 10
      then content ++ "... and " ++ toString (critical_alerts.length - 10) ++ " more critical alerts\n"
      else content
    let content := content ++ "\nWarning Alerts:\n"
    let content := (warning_alerts.take 10).foldl (fun acc a => acc ++ alertLine a) content
    let content := if warning_alerts.length > 10
      then content ++ "... and " ++ toString (warning_alerts.length - 10) ++ " more warnings\n"
      else content
    (subject, content ++ "\nPlease review the inventory system for detailed information.")

/-- Day number used as "today" in all concrete scenarios. -/
def day0 : Int := 20000

/-- A record that expired five days ago, never acknowledged. -/
def recExpired : InventoryRecord :=
  { id := 1
    patient_name := "Alice"
    drug_item_name := "DrugA"
    expiration_date := some (day0 - 5)
    inventory_number := "INV-001"
    location := "LocX"
    acknowledged_alerts := none }

/-- A record expiring in four days (inside the default critical window). -/
def recCritical : InventoryRecord :=
  { id := 2
    patient_name := "Bob"
    drug_item_name := "DrugB"
    expiration_date := some (day0 + 4)
    inventory_number := "INV-002"
    location := "LocY"
    acknowledged_alerts := none }

/-- Record 42, expiring in ten days (inside the default warning window). -/
def recWarning42 : InventoryRecord :=
  { id := 42
    patient_name := "Carol"
    drug_item_name := "DrugC"
    expiration_date := some (day0 + 10)
    inventory_number := "INV-042"
    location := "LocZ"
    acknowledged_alerts := none }

/-- Record 7, far from expiry, with one pre-existing acknowledgment key. -/
def recSeven : InventoryRecord :=
  { id := 7
    patient_name := "Dan"
    drug_item_name := "DrugD"
    expiration_date := some (day0 + 100)
    inventory_number := "INV-007"
    location := "LocW"
    acknowledged_alerts := some [("old_key", "2023-01-01T00:00:00")] }

/-- Store with a single expired record (C1 scenario). -/
def stExpired : DBState :=
  { inventory := [recExpired], settingsTableExists := true, settingsLog := [] }

/-- Store with record 42 in the warning window (C2 scenario). -/
def stWarning : DBState :=
  { inventory := [recWarning42], settingsTableExists := true, settingsLog := [] }

/-- Store with record 7 only (C3/C4 scenarios). -/
def stSeven : DBState :=
  { inventory := [recSeven], settingsTableExists := true, settingsLog := [] }

/-- Settings row with stock alerts disabled. -/
def settingsNoStock : AlertSettings :=
  { get_default_alert_settings with enable_stock_alerts := false }

/-- Store whose current settings disable stock alerts, holding one
non-expired record (C6 counterexample scenario). -/
def stNoStock : DBState :=
  { inventory := [recSeven]
    settingsTableExists := true
    settingsLog := [(settingsNoStock, "admin")] }

/-- Store holding one expired record next to one critical-window record
(C7 counterexample scenario). -/
def stMixed : DBState :=
  { inventory := [recExpired, recCritical], settingsTableExists := true, settingsLog := [] }

/-- Store for the C7 witness: a single critical-window record. -/
def stCriticalOnly : DBState :=
  { inventory := [recCritical], settingsTableExists := true, settingsLog := [] }

/-- Operation sequence used by the C5 witness. -/
def opsWitness : List EngineOp :=
  [EngineOp.acknowledge ["expired_7"] "2024-06-01T10:00:00",
   EngineOp.evaluate day0,
   EngineOp.saveSettings settingsNoStock "admin",
   EngineOp.readSettings]

/-- A concrete Critical alert used in the summary-rendering scenarios. -/
def alertSample : Alert :=
  { id := "expired_1"
    record_id := .vInt 1
    alert_type := "Expired"
    severity := "Critical"
    patient_name := .vStr "Alice"
    item_name := .vStr "DrugA"
    expiry_date := .vStr "DrugA"
    inventory_number := .vDate (day0 - 5)
    location := .vStr "INV-001"
    message := "Item expired 5 days ago"
    days_until_expiry := some (-5)
    stock_count := none }

/-- Day difference `v - today` of a fetched date value (total version used
to state what the ok-branches of the expiry loop bodies produce). -/
def pyDateSub (v : PyVal) (today : Int) : Int :=
  match v with
  | .vDate d => d - today
  | _ => 0

/-- The alert the critical-expiry loop body yields when its subtraction
succeeds (item.c3 is a date). -/
def critAlertRow (today : Int) (item : ExpiryRow) : Alert :=
  { id := "expiring_critical_" ++ pyStr item.c0
    record_id := item.c0
    alert_type := "Expiring Soon"
    severity := "Critical"
    patient_name := item.c1
    item_name := item.c2
    expiry_date := item.c3
    inventory_number := item.c4
    location := item.c5
    message := "Expires in " ++ toString (pyDateSub item.c3 today) ++ " days"
    days_until_expiry := some (pyDateSub item.c3 today)
    stock_count := none }

/-- The alert the warning-expiry loop body yields when its subtraction
succeeds (item.c3 is a date). -/
def warnAlertRow (today : Int) (item : ExpiryRow) : Alert :=
  { id := "expiring_warning_" ++ pyStr item.c0
    record_id := item.c0
    alert_type := "Expiring Soon"
    severity := "Warning"
    patient_name := item.c1
    item_name := item.c2
    expiry_date := item.c3
    inventory_number := item.c4
    location := item.c5
    message := "Expires in " ++ toString (pyDateSub item.c3 today) ++ " days"
    days_until_expiry := some (pyDateSub item.c3 today)
    stock_count := none }

/-- One record is ack-monotonically related to another: same id and every
acknowledged key of the first is still acknowledged in the second. -/
def AckMono (r r' : InventoryRecord) : Prop :=
  r.id = r'.id ∧ ∀ k, k ∈ ackKeys r → k ∈ ackKeys r'

/-! ## Generic lemmas about the embedded primitives -/

theorem mapME_ok_of_forall {α β : Type} {f : α → Except String β} {g : α → β} :
    ∀ l : List α, (∀ a ∈ l, f a = .ok (g a)) → mapME f l = .ok (l.map g) := by
  intro l h
  induction l with
  | nil => rfl
  | cons a as ih =>
    have ha : f a = .ok (g a) := h a (List.mem_cons_self a as)
    have hrest := ih (fun x hx => h x (List.mem_cons_of_mem a hx))
    simp [mapME, ha, hrest]

theorem mapME_mem {α β : Type} {f : α → Except String β} :
    ∀ {l : List α} {ys : List β}, mapME f l = .ok ys → ∀ y ∈ ys, ∃ a ∈ l, f a = .ok y := by
  intro l
  induction l with
  | nil =>
    intro ys h y hy
    simp only [mapME] at h
    cases h
    cases hy
  | cons a as ih =>
    intro ys h y hy
    simp only [mapME] at h
    cases hfa : f a with
    | error e => rw [hfa] at h; cases h
    | ok b =>
      rw [hfa] at h
      cases hrest : mapME f as with
      | error e => rw [hrest] at h; cases h
      | ok bs =>
        rw [hrest] at h
        cases h
        rcases List.mem_cons.mp hy with h1 | h2
        · exact ⟨a, List.mem_cons_self a as, by rw [hfa, h1]⟩
        · rcases ih hrest y h2 with ⟨x, hx, hfx⟩
          exact ⟨x, List.mem_cons_of_mem a hx, hfx⟩

theorem jsonbHasKey_iff {m : JsonbMap} {k : String} :
    jsonbHasKey m k = true ↔ k ∈ m.map Prod.fst := by
  unfold jsonbHasKey
  rw [List.any_eq_true]
  constructor
  · rintro ⟨p, hp, he⟩
    exact List.mem_map.mpr ⟨p, hp, by simpa using he⟩
  · intro h
    rcases List.mem_map.mp h with ⟨p, hp, hk⟩
    exact ⟨p, hp, by simp [hk]⟩

theorem jsonbConcat_preserves_keys {m b : JsonbMap} {k : String}
    (h : k ∈ m.map Prod.fst) : k ∈ (jsonbConcat m b).map Prod.fst := by
  rcases List.mem_map.mp h with ⟨p, hp, hk⟩
  unfold jsonbConcat
  rw [List.map_append]
  by_cases hb : jsonbHasKey b k = true
  · exact List.mem_append_right _ (jsonbHasKey_iff.mp hb)
  · refine List.mem_append_left _ (List.mem_map.mpr ⟨p, ?_, hk⟩)
    refine List.mem_filter.mpr ⟨hp, ?_⟩
    rw [hk]
    simp only [Bool.not_eq_true] at hb
    simp [hb]

theorem jsonbConcat_single_absorb (m : JsonbMap) (k t t' : String) :
    jsonbConcat (jsonbConcat m [(k, t)]) [(k, t')] = jsonbConcat m [(k, t')] := by
  unfold jsonbConcat
  have hpred : ∀ t'' : String,
      (fun p : String × String => !(jsonbHasKey [(k, t'')] p.1)) = (fun p => !(k == p.1)) := by
    intro t''
    funext p
    simp [jsonbHasKey]
  rw [hpred t, hpred t']
  rw [List.filter_append]
  have h1 : List.filter (fun p : String × String => !(k == p.1)) [(k, t)] = [] := by simp
  rw [h1, List.append_nil, List.filter_filter]
  have h2 : (fun p : String × String => !(k == p.1) && !(k == p.1))
      = (fun p => !(k == p.1)) := by
    funext p
    cases hkp : (k == p.1) <;> simp [hkp]
  rw [h2]

theorem jsonbConcat_single_keys (m : JsonbMap) (k t : String) :
    (jsonbConcat m [(k, t)]).map Prod.fst
      = (m.filter (fun p => !(k == p.1))).map Prod.fst ++ [k] := by
  unfold jsonbConcat
  have hpred : (fun p : String × String => !(jsonbHasKey [(k, t)] p.1)) = (fun p => !(k == p.1)) := by
    funext p
    simp [jsonbHasKey]
  rw [hpred, List.map_append]
  rfl

theorem filter_of_nodup_ids {inv : List InventoryRecord} {r : InventoryRecord}
    (hnd : (inv.map InventoryRecord.id).Nodup) (hr : r ∈ inv) :
    inv.filter (fun x => x.id == r.id) = [r] := by
  induction inv with
  | nil => cases hr
  | cons a as ih =>
    rw [List.map_cons, List.nodup_cons] at hnd
    rcases List.mem_cons.mp hr with h1 | h2
    · subst h1
      have hrest : List.filter (fun x => x.id == r.id) as = [] := by
        refine List.filter_eq_nil_iff.mpr ?_
        intro x hx hbad
        exact hnd.1 (List.mem_map.mpr ⟨x, hx, beq_iff_eq.mp hbad⟩)
      simp [List.filter_cons, hrest]
    · have hne : (a.id == r.id) = false := by
        by_contra hc
        simp only [Bool.not_eq_false, beq_iff_eq] at hc
        exact hnd.1 (by rw [hc]; exact List.mem_map.mpr ⟨r, h2, rfl⟩)
      simp [List.filter_cons, hne, ih hnd.2 h2]

theorem forall₂_mem_of_mem {α : Type} {R : α → α → Prop} :
    ∀ {l l' : List α}, List.Forall₂ R l l' → ∀ a ∈ l, ∃ b ∈ l', R a b := by
  intro l l' h
  induction h with
  | nil => intro a ha; cases ha
  | cons hab _ ih =>
    intro x hx
    rcases List.mem_cons.mp hx with h1 | h2
    · subst h1
      exact ⟨_, List.mem_cons_self _ _, hab⟩
    · rcases ih x h2 with ⟨b, hb, hrb⟩
      exact ⟨b, List.mem_cons_of_mem _ hb, hrb⟩

theorem forall₂_trans_ours {α : Type} {R : α → α → Prop}
    (htrans : ∀ a b c, R a b → R b c → R a c) :
    ∀ {l1 l2 l3 : List α}, List.Forall₂ R l1 l2 → List.Forall₂ R l2 l3 →
      List.Forall₂ R l1 l3 := by
  intro l1 l2 l3 h12
  induction h12 generalizing l3 with
  | nil =>
    intro h23
    cases h23
    exact List.Forall₂.nil
  | cons hab htail ih =>
    intro h23
    cases h23 with
    | cons hbc htail23 =>
      exact List.Forall₂.cons (htrans _ _ _ hab hbc) (ih htail23)

/-! ## Claim C1 (code bug), C2 (code bug), C3 (code bug) -/

/-- C1: the claim says a record whose expiration_date lies strictly before
today and whose acknowledged_alerts lacks "expired" yields exactly one
Critical "Expired" alert with days-since-expiry = today - expiration_date.
The code instead computes `datetime.now().date() - item[2]` where item[2]
is drug_item_name (the date sits at item[3]), raising TypeError; the
handler turns the whole expiry evaluation into [], so no Expired alert is
ever produced.  At the concrete failing input (record 1, expired 5 days
ago, never acknowledged) the evaluation raises and returns no alerts. -/
theorem c1_expired_alert_crash :
    check_expiry_alertsE day0 (get_alert_settings stExpired) stExpired.inventory
        = Except.error "TypeError: unsupported operand for date subtraction"
      ∧ get_current_alerts day0 stExpired = [] :=
  ⟨rfl, by decide⟩

/-- C2: the claim says an acknowledged alert id must not reappear in the
active set.  In the very scenario of the spec — acknowledge "expiring_warning_42"
then re-evaluate unchanged data — the code reports success, yet writes
nothing (split('_', 1) yields class "expiring" and non-digit remainder
"warning_42", so the id is skipped; and even for parsable ids the written
key "<class>_acknowledged" never matches the queried key "<class>"), and
the alert with id "expiring_warning_42" is still in the active set. -/
theorem c2_acknowledged_alert_reappears :
    (acknowledge_alerts stWarning ["expiring_warning_42"] "2024-06-01T10:00:00").1 = true
      ∧ (acknowledge_alerts stWarning ["expiring_warning_42"] "2024-06-01T10:00:00").2 = stWarning
      ∧ (get_current_alerts day0
            ((acknowledge_alerts stWarning ["expiring_warning_42"] "2024-06-01T10:00:00").2)).any
          (fun a => a.id == "expiring_warning_42") = true := by
  refine ⟨by decide, by decide, by decide⟩

/-- C3: the claim says every id of shape <class>_<record_id> with class in
{expired, expiring_critical, expiring_warning} gets key
<class>_acknowledged merged into the map of the record, and failing ids are
reported to the caller.  The code splits at the FIRST underscore, so
"expiring_critical_7" parses into ("expiring", "critical_7"), fails the
isdigit test and is silently skipped: the store is untouched and the call
returns plain True, which carries no report of skipped ids. -/
theorem c3_multiword_class_id_skipped :
    acknowledge_alerts stSeven ["expiring_critical_7"] "2024-06-01T10:00:00" = (true, stSeven)
      ∧ parseAckId "expiring_critical_7" = none := by
  refine ⟨by decide, by decide⟩

/-! ## Claim C8: evaluation is read-only -/

/-- C8: evaluate_alerts (get_current_alerts, including its settings read)
leaves the stores exactly as they were.  The settings read does issue
CREATE TABLE IF NOT EXISTS alert_settings, but closes its connection
without commit, so the pending DDL is discarded and the resulting store
state is the input state; no insert, update or delete is issued at all. -/
theorem c8_evaluate_read_only (today : Int) (st : DBState) :
    (get_current_alerts_run today st).2 = st ∧ (get_alert_settings_run st).2 = st :=
  ⟨rfl, rfl⟩

/-! ## Claim C10: NULL expiration dates are invisible to the engine -/

theorem expiredPred_isSome {today : Int} {r : InventoryRecord}
    (h : expiredPred today r = true) : r.expiration_date.isSome = true := by
  cases hr : r.expiration_date with
  | none => simp [expiredPred, hr] at h
  | some d => simp [hr]

theorem criticalPred_isSome {today cd : Int} {r : InventoryRecord}
    (h : criticalPred today cd r = true) : r.expiration_date.isSome = true := by
  cases hr : r.expiration_date with
  | none => simp [criticalPred, hr] at h
  | some d => simp [hr]

theorem warningPred_isSome {cd wd : Int} {r : InventoryRecord}
    (h : warningPred cd wd r = true) : r.expiration_date.isSome = true := by
  cases hr : r.expiration_date with
  | none => simp [warningPred, hr] at h
  | some d => simp [hr]

theorem filter_isSome_sub {p : InventoryRecord → Bool}
    (h : ∀ r, p r = true → r.expiration_date.isSome = true) (inv : List InventoryRecord) :
    (inv.filter (fun r => r.expiration_date.isSome)).filter p = inv.filter p := by
  rw [List.filter_filter]
  refine List.filter_congr ?_
  intro a _
  cases hp : p a
  · simp
  · simp [h a hp]

theorem nonExpiredRecords_filter_isSome (today : Int) (inv : List InventoryRecord) :
    nonExpiredRecords today (inv.filter (fun r => r.expiration_date.isSome))
      = nonExpiredRecords today inv := by
  unfold nonExpiredRecords
  refine filter_isSome_sub ?_ inv
  intro r h
  cases hr : r.expiration_date with
  | none => rw [hr] at h; exact absurd h (by simp)
  | some d => simp [hr]

theorem expiredQuery_filter_isSome (today : Int) (inv : List InventoryRecord) :
    expiredQuery today (inv.filter (fun r => r.expiration_date.isSome))
      = expiredQuery today inv := by
  unfold expiredQuery
  exact filter_isSome_sub (fun r h => expiredPred_isSome h) inv

theorem criticalQuery_filter_isSome (today cd : Int) (inv : List InventoryRecord) :
    criticalQuery today cd (inv.filter (fun r => r.expiration_date.isSome))
      = criticalQuery today cd inv := by
  unfold criticalQuery
  exact filter_isSome_sub (fun r h => criticalPred_isSome h) inv

theorem warningQuery_filter_isSome (cd wd : Int) (inv : List InventoryRecord) :
    warningQuery cd wd (inv.filter (fun r => r.expiration_date.isSome))
      = warningQuery cd wd inv := by
  unfold warningQuery
  exact filter_isSome_sub (fun r h => warningPred_isSome h) inv

theorem check_expiry_filter_isSome (today : Int) (settings : AlertSettings)
    (inv : List InventoryRecord) :
    check_expiry_alertsE today settings (inv.filter (fun r => r.expiration_date.isSome))
      = check_expiry_alertsE today settings inv := by
  unfold check_expiry_alertsE
  simp only [expiredQuery_filter_isSome, criticalQuery_filter_isSome, warningQuery_filter_isSome]

theorem check_stock_filter_isSome (today : Int) (settings : AlertSettings)
    (inv : List InventoryRecord) :
    check_stock_alerts today settings (inv.filter (fun r => r.expiration_date.isSome))
      = check_stock_alerts today settings inv := by
  unfold check_stock_alerts groupCount
  rw [nonExpiredRecords_filter_isSome]

/-- C10: a record with absent (NULL) expiration_date matches none of the
expired / expiring-critical / expiring-warning conditions and is excluded
from the stock group counts: evaluation over the inventory equals the
evaluation over the inventory with all NULL-expiration records removed, at
every store state — such records are invisible to the whole engine. -/
theorem c10_null_expiration_invisible (today : Int) (st : DBState) :
    get_current_alerts today st
      = get_current_alerts today
          { st with inventory := st.inventory.filter (fun r => r.expiration_date.isSome) } := by
  show check_expiry_alerts today (get_alert_settings st) st.inventory
        ++ check_stock_alerts today (get_alert_settings st) st.inventory
      = check_expiry_alerts today (get_alert_settings st)
          (st.inventory.filter (fun r => r.expiration_date.isSome))
        ++ check_stock_alerts today (get_alert_settings st)
          (st.inventory.filter (fun r => r.expiration_date.isSome))
  unfold check_expiry_alerts
  rw [check_expiry_filter_isSome, check_stock_filter_isSome]

/-! ## Claim C4: idempotence of acknowledgment -/

theorem mergeAck_twice (st : DBState) (rid : Nat) (key ts ts2 : String) :
    applyWrite (applyWrite st (.mergeAck rid key ts)) (.mergeAck rid key ts2)
      = applyWrite st (.mergeAck rid key ts2) := by
  unfold applyWrite
  simp only [List.map_map]
  congr 1
  refine List.map_congr_left ?_
  intro r hr
  by_cases h : r.id = rid
  · simp [Function.comp, h, jsonbConcat_single_absorb]
  · simp [Function.comp, h]

theorem mergeAck_twice_keys (st : DBState) (rid : Nat) (key ts ts2 : String) :
    (applyWrite (applyWrite st (.mergeAck rid key ts)) (.mergeAck rid key ts2)).inventory.map ackKeys
      = (applyWrite st (.mergeAck rid key ts)).inventory.map ackKeys := by
  rw [mergeAck_twice]
  unfold applyWrite
  simp only [List.map_map]
  refine List.map_congr_left ?_
  intro r hr
  by_cases h : r.id = rid
  · simp [Function.comp, h, ackKeys, jsonbConcat_single_keys]
  · simp [Function.comp, h]

/-- C4 counterexample: acknowledging "expired_7" twice in sequence does NOT
leave the acknowledged_alerts content equal to one call — the two calls
run at different instants, and the second merge overwrites the stored
timestamp value, so the resulting store states differ. -/
theorem c4_second_acknowledge_changes_content :
    (acknowledge_alerts (acknowledge_alerts stSeven ["expired_7"] "2024-06-01T10:00:00").2
        ["expired_7"] "2024-06-01T10:00:05").2
      ≠ (acknowledge_alerts stSeven ["expired_7"] "2024-06-01T10:00:00").2 := by
  decide

/-- C4 (amended): acknowledging the same id twice is idempotent only up to
the acknowledgment timestamp.  If the second call carries the same
timestamp the store state is exactly that of one call; with any second
timestamp the key sets of the acknowledged_alerts map of every record are
unchanged (only the stored value is overwritten), and the second call
reports success. -/
theorem c4_acknowledge_idempotent_amended (st : DBState) (aid ts ts2 : String) :
    (acknowledge_alerts (acknowledge_alerts st [aid] ts).2 [aid] ts).2
        = (acknowledge_alerts st [aid] ts).2
      ∧ ((acknowledge_alerts (acknowledge_alerts st [aid] ts).2 [aid] ts2).2).inventory.map ackKeys
        = ((acknowledge_alerts st [aid] ts).2).inventory.map ackKeys
      ∧ (acknowledge_alerts (acknowledge_alerts st [aid] ts).2 [aid] ts2).1 = true := by
  cases hp : parseAckId aid with
  | none =>
    simp [acknowledge_alerts, hp, commitOrDiscard, applyWrites]
  | some p =>
    have e1 : ∀ (s : DBState) (t : String),
        (acknowledge_alerts s [aid] t).2
          = applyWrite s (.mergeAck p.2 (p.1 ++ "_acknowledged") t) := by
      intro s t
      simp [acknowledge_alerts, hp, commitOrDiscard, applyWrites]
    refine ⟨?_, ?_, rfl⟩
    · simp only [e1]
      exact mergeAck_twice st p.2 (p.1 ++ "_acknowledged") ts ts
    · simp only [e1]
      exact mergeAck_twice_keys st p.2 (p.1 ++ "_acknowledged") ts ts2

/-! ## Claim C5: acknowledged key sets never shrink -/

theorem ackMono_refl (r : InventoryRecord) : AckMono r r :=
  ⟨rfl, fun _ h => h⟩

theorem ackMono_trans (a b c : InventoryRecord) :
    AckMono a b → AckMono b c → AckMono a c :=
  fun h1 h2 => ⟨h1.1.trans h2.1, fun k hk => h2.2 k (h1.2 k hk)⟩

theorem applyWrite_ackMono (st : DBState) (w : SqlWrite) :
    List.Forall₂ AckMono st.inventory (applyWrite st w).inventory := by
  cases w with
  | createSettingsTable => exact List.forall₂_same.mpr (fun r _ => ackMono_refl r)
  | insertSettingsRow s u => exact List.forall₂_same.mpr (fun r _ => ackMono_refl r)
  | mergeAck rid key ts =>
    show List.Forall₂ AckMono st.inventory (st.inventory.map _)
    refine List.forall₂_map_right_iff.mpr (List.forall₂_same.mpr ?_)
    intro r _
    by_cases h : r.id = rid
    · rw [if_pos h]
      exact ⟨rfl, fun k hk => jsonbConcat_preserves_keys hk⟩
    · rw [if_neg h]
      exact ackMono_refl r

theorem applyWrites_ackMono (ws : List SqlWrite) :
    ∀ st : DBState, List.Forall₂ AckMono st.inventory (applyWrites st ws).inventory := by
  induction ws with
  | nil =>
    intro st
    exact List.forall₂_same.mpr (fun r _ => ackMono_refl r)
  | cons w ws ih =>
    intro st
    have h1 := applyWrite_ackMono st w
    have h2 := ih (applyWrite st w)
    exact forall₂_trans_ours ackMono_trans h1 h2

theorem stepOp_ackMono (st : DBState) (op : EngineOp) :
    List.Forall₂ AckMono st.inventory (stepOp st op).inventory := by
  cases op with
  | evaluate today => exact List.forall₂_same.mpr (fun r _ => ackMono_refl r)
  | readSettings => exact List.forall₂_same.mpr (fun r _ => ackMono_refl r)
  | saveSettings s u =>
    show List.Forall₂ AckMono st.inventory (save_alert_settings_run st s u).2.inventory
    unfold save_alert_settings_run
    by_cases h : st.settingsTableExists
    · simp only [h, if_pos rfl]
      exact applyWrites_ackMono [SqlWrite.insertSettingsRow s u] st
    · simp only [if_neg h]
      exact List.forall₂_same.mpr (fun r _ => ackMono_refl r)
  | acknowledge ids ts =>
    show List.Forall₂ AckMono st.inventory (acknowledge_alerts st ids ts).2.inventory
    unfold acknowledge_alerts commitOrDiscard
    exact applyWrites_ackMono _ st

theorem runOps_ackMono (ops : List EngineOp) :
    ∀ st : DBState, List.Forall₂ AckMono st.inventory (runOps st ops).inventory := by
  induction ops with
  | nil =>
    intro st
    exact List.forall₂_same.mpr (fun r _ => ackMono_refl r)
  | cons op ops ih =>
    intro st
    exact forall₂_trans_ours ackMono_trans (stepOp_ackMono st op) (ih (stepOp st op))

/-- C5: for every record and every finite sequence of engine operations
(evaluations, acknowledgments, settings reads and saves), the key set of
the acknowledged_alerts map of that record never loses a key: the record is
still present with the same id and a superset of its acknowledged keys. -/
theorem c5_ack_keys_monotone (st : DBState) (ops : List EngineOp)
    (r : InventoryRecord) (hr : r ∈ st.inventory) :
    ∃ r', r' ∈ (runOps st ops).inventory ∧ r'.id = r.id
      ∧ ∀ k, k ∈ ackKeys r → k ∈ ackKeys r' := by
  rcases forall₂_mem_of_mem (runOps_ackMono ops st) r hr with ⟨b, hb, hR⟩
  exact ⟨b, hb, hR.1.symm, hR.2⟩

/-- Witness for C5 at a concrete store and operation sequence. -/
theorem c5_ack_keys_monotone_witness :
    ∃ r', r' ∈ (runOps stSeven opsWitness).inventory ∧ r'.id = recSeven.id
      ∧ ∀ k, k ∈ ackKeys recSeven → k ∈ ackKeys r' :=
  c5_ack_keys_monotone stSeven opsWitness recSeven (by decide)

/-! ## Supporting lemmas for the expiry and stock claims -/

theorem mkCriticalAlert_ok_of_date {today d : Int} {item : ExpiryRow}
    (h : item.c3 = PyVal.vDate d) :
    mkCriticalAlert today item = .ok (critAlertRow today item) := by
  unfold mkCriticalAlert critAlertRow subDateToday pyDateSub
  rw [h]

theorem mkWarningAlert_ok_of_date {today d : Int} {item : ExpiryRow}
    (h : item.c3 = PyVal.vDate d) :
    mkWarningAlert today item = .ok (warnAlertRow today item) := by
  unfold mkWarningAlert warnAlertRow subDateToday pyDateSub
  rw [h]

theorem criticalQuery_c3_date {today cd : Int} {inv : List InventoryRecord}
    {r : InventoryRecord} (hr : r ∈ criticalQuery today cd inv) :
    ∃ d : Int, (toExpiryRow r).c3 = PyVal.vDate d := by
  have hp := (List.mem_filter.mp hr).2
  have hs := criticalPred_isSome hp
  rcases Option.isSome_iff_exists.mp hs with ⟨d, hd⟩
  exact ⟨d, by simp [toExpiryRow, hd]⟩

theorem warningQuery_c3_date {cd wd : Int} {inv : List InventoryRecord}
    {r : InventoryRecord} (hr : r ∈ warningQuery cd wd inv) :
    ∃ d : Int, (toExpiryRow r).c3 = PyVal.vDate d := by
  have hp := (List.mem_filter.mp hr).2
  have hs := warningPred_isSome hp
  rcases Option.isSome_iff_exists.mp hs with ⟨d, hd⟩
  exact ⟨d, by simp [toExpiryRow, hd]⟩

/-- When the expired-items query is empty (so the buggy expired loop body
never runs), the expiry evaluation succeeds and yields exactly the mapped
critical-window and warning-window alerts. -/
theorem check_expiry_eval {today : Int} {s : AlertSettings} {inv : List InventoryRecord}
    (hexp : expiredQuery today inv = []) :
    check_expiry_alerts today s inv
      = ((criticalQuery today (today + s.expiry_critical_days) inv).map
            (fun x => critAlertRow today (toExpiryRow x)))
        ++ ((warningQuery (today + s.expiry_critical_days) (today + s.expiry_warning_days) inv).map
            (fun x => warnAlertRow today (toExpiryRow x))) := by
  have hcrit : mapME (mkCriticalAlert today)
      ((criticalQuery today (today + s.expiry_critical_days) inv).map toExpiryRow)
      = .ok (((criticalQuery today (today + s.expiry_critical_days) inv).map toExpiryRow).map
          (critAlertRow today)) := by
    refine mapME_ok_of_forall _ ?_
    intro item hitem
    rcases List.mem_map.mp hitem with ⟨r, hr, hENT⟩
    rcases criticalQuery_c3_date hr with ⟨d, hd⟩
    rw [hENT] at hd
    exact mkCriticalAlert_ok_of_date hd
  have hwarn : mapME (mkWarningAlert today)
      ((warningQuery (today + s.expiry_critical_days) (today + s.expiry_warning_days) inv).map toExpiryRow)
      = .ok (((warningQuery (today + s.expiry_critical_days) (today + s.expiry_warning_days) inv).map toExpiryRow).map
          (warnAlertRow today)) := by
    refine mapME_ok_of_forall _ ?_
    intro item hitem
    rcases List.mem_map.mp hitem with ⟨r, hr, hENT⟩
    rcases warningQuery_c3_date hr with ⟨d, hd⟩
    rw [hENT] at hd
    exact mkWarningAlert_ok_of_date hd
  unfold check_expiry_alerts check_expiry_alertsE
  simp only [hexp, List.map_nil, mapME, hcrit, hwarn, List.map_map, List.nil_append]
  rfl

/-- Every alert built by the stock check carries record_id None. -/
theorem check_stock_record_id {today : Int} {s : AlertSettings} {inv : List InventoryRecord}
    {a : Alert} (ha : a ∈ check_stock_alerts today s inv) :
    a.record_id = PyVal.vNone := by
  unfold check_stock_alerts at ha
  simp only [List.mem_map] at ha
  rcases ha with ⟨g, _, rfl⟩
  rfl

/-- Filtering a duplicate-free list for one of its elements yields exactly
that element once. -/
theorem nodup_filter_beq_singleton {α : Type} [BEq α] [LawfulBEq α] {l : List α} {a : α}
    (hnd : l.Nodup) (h : a ∈ l) : l.filter (fun x => x == a) = [a] := by
  induction l with
  | nil => cases h
  | cons b bs ih =>
    rw [List.nodup_cons] at hnd
    rcases List.mem_cons.mp h with h1 | h2
    · subst h1
      have hrest : bs.filter (fun x => x == a) = [] := by
        refine List.filter_eq_nil_iff.mpr ?_
        intro x hx hbad
        exact hnd.1 (by rw [← eq_of_beq hbad]; exact hx)
      simp [List.filter_cons, hrest]
    · have hne : (b == a) = false := by
        by_contra hc
        simp only [Bool.not_eq_false] at hc
        exact hnd.1 (by rw [eq_of_beq hc]; exact h2)
      simp [List.filter_cons, hne, ih hnd.2 h2]

/-- In a deduplicated list, filtering for a present element yields exactly
that element once. -/
theorem dedup_filter_eq_singleton {α : Type} [BEq α] [LawfulBEq α] [DecidableEq α]
    {l : List α} {a : α}
    (h : a ∈ l) : l.dedup.filter (fun x => x == a) = [a] :=
  nodup_filter_beq_singleton (l.nodup_dedup) (List.mem_dedup.mpr h)

theorem filter_critMap_by_record {today cd : Int} {inv : List InventoryRecord}
    {r : InventoryRecord} (hnd : (inv.map InventoryRecord.id).Nodup) (hr : r ∈ inv) :
    ((criticalQuery today cd inv).map (fun x => critAlertRow today (toExpiryRow x))).filter
        (fun a => decide (a.record_id = PyVal.vInt r.id) && decide (a.alert_type = "Expiring Soon"))
      = ([r].filter (criticalPred today cd)).map (fun x => critAlertRow today (toExpiryRow x)) := by
  rw [List.filter_map]
  have hcong : ∀ x ∈ criticalQuery today cd inv,
      ((fun a : Alert => decide (a.record_id = PyVal.vInt r.id)
          && decide (a.alert_type = "Expiring Soon"))
        ∘ (fun x => critAlertRow today (toExpiryRow x))) x = (x.id == r.id) := by
    intro x _
    show (decide (PyVal.vInt x.id = PyVal.vInt r.id)
        && decide (("Expiring Soon" : String) = "Expiring Soon")) = (x.id == r.id)
    by_cases h : x.id = r.id
    · simp [h]
    · have hne : (PyVal.vInt x.id = PyVal.vInt r.id) → False := by
        intro hc
        exact h (Int.ofNat.inj (PyVal.vInt.inj hc))
      simp [h, hne]
  rw [List.filter_congr hcong]
  show ((inv.filter (criticalPred today cd)).filter (fun x => x.id == r.id)).map _ = _
  rw [List.filter_filter]
  have hswap : ∀ x ∈ inv,
      ((fun x : InventoryRecord => x.id == r.id) x && criticalPred today cd x)
        = (criticalPred today cd x && (x.id == r.id)) := by
    intro x _
    exact Bool.and_comm _ _
  rw [List.filter_congr hswap, ← List.filter_filter, filter_of_nodup_ids hnd hr]

theorem filter_warnMap_by_record {cd wd : Int} {inv : List InventoryRecord}
    {r : InventoryRecord} (hnd : (inv.map InventoryRecord.id).Nodup) (hr : r ∈ inv) :
    ((warningQuery cd wd inv).map (fun x => warnAlertRow today (toExpiryRow x))).filter
        (fun a => decide (a.record_id = PyVal.vInt r.id) && decide (a.alert_type = "Expiring Soon"))
      = ([r].filter (warningPred cd wd)).map (fun x => warnAlertRow today (toExpiryRow x)) := by
  rw [List.filter_map]
  have hcong : ∀ x ∈ warningQuery cd wd inv,
      ((fun a : Alert => decide (a.record_id = PyVal.vInt r.id)
          && decide (a.alert_type = "Expiring Soon"))
        ∘ (fun x => warnAlertRow today (toExpiryRow x))) x = (x.id == r.id) := by
    intro x _
    show (decide (PyVal.vInt x.id = PyVal.vInt r.id)
        && decide (("Expiring Soon" : String) = "Expiring Soon")) = (x.id == r.id)
    by_cases h : x.id = r.id
    · simp [h]
    · have hne : (PyVal.vInt x.id = PyVal.vInt r.id) → False := by
        intro hc
        exact h (Int.ofNat.inj (PyVal.vInt.inj hc))
      simp [h, hne]
  rw [List.filter_congr hcong]
  show ((inv.filter (warningPred cd wd)).filter (fun x => x.id == r.id)).map _ = _
  rw [List.filter_filter]
  have hswap : ∀ x ∈ inv,
      ((fun x : InventoryRecord => x.id == r.id) x && warningPred cd wd x)
        = (warningPred cd wd x && (x.id == r.id)) := by
    intro x _
    exact Bool.and_comm _ _
  rw [List.filter_congr hswap, ← List.filter_filter, filter_of_nodup_ids hnd hr]

theorem filter_stock_by_record_nil (today : Int) (s : AlertSettings)
    (inv : List InventoryRecord) (r : InventoryRecord) :
    (check_stock_alerts today s inv).filter
        (fun a => decide (a.record_id = PyVal.vInt r.id) && decide (a.alert_type = "Expiring Soon"))
      = [] := by
  refine List.filter_eq_nil_iff.mpr ?_
  intro a ha
  have hrid := check_stock_record_id ha
  simp [hrid]

/-- C7 counterexample: the claim as stated fails when any unacknowledged
expired record coexists: in stMixed, record 2 lies in the critical window
with no acknowledgment, yet evaluation (poisoned by the expired-loop
TypeError raised for record 1) produces NO "Expiring Soon" alert for it. -/
theorem c7_counterexample_poisoned_eval :
    (get_current_alerts day0 stMixed).any
        (fun a => decide (a.record_id = PyVal.vInt 2) && decide (a.alert_type = "Expiring Soon"))
      = false := by
  decide

/-- C7 (amended): provided record ids are distinct (the primary
key of the table) and the inventory holds no expired-and-unacknowledged record (whose
presence aborts the whole expiry evaluation through the expired-loop
defect), a record with expiration_date in [today, today+critical_days] and
no "expiring_critical" acknowledgment yields exactly one Critical
"Expiring Soon" alert with days_until_expiry = expiration_date - today,
and a record in (today+critical_days, today+warning_days] with no
"expiring_warning" acknowledgment yields exactly one Warning alert; the
two windows are disjoint, so the same record never yields both. -/
theorem c7_expiring_windows_amended (today : Int) (st : DBState)
    (r : InventoryRecord) (d : Int)
    (hr : r ∈ st.inventory)
    (hnd : (st.inventory.map InventoryRecord.id).Nodup)
    (hexp : expiredQuery today st.inventory = [])
    (hd : r.expiration_date = some d) :
    (today ≤ d → d ≤ today + (get_alert_settings st).expiry_critical_days →
      ackNotContains r "expiring_critical" = true →
      (get_current_alerts today st).filter
          (fun a => decide (a.record_id = PyVal.vInt r.id)
            && decide (a.alert_type = "Expiring Soon"))
        = [{ id := "expiring_critical_" ++ toString r.id
             record_id := PyVal.vInt r.id
             alert_type := "Expiring Soon"
             severity := "Critical"
             patient_name := PyVal.vStr r.patient_name
             item_name := PyVal.vStr r.drug_item_name
             expiry_date := PyVal.vDate d
             inventory_number := PyVal.vStr r.inventory_number
             location := PyVal.vStr r.location
             message := "Expires in " ++ toString (d - today) ++ " days"
             days_until_expiry := some (d - today)
             stock_count := none }])
    ∧ (today + (get_alert_settings st).expiry_critical_days < d →
        d ≤ today + (get_alert_settings st).expiry_warning_days →
        ackNotContains r "expiring_warning" = true →
        (get_current_alerts today st).filter
            (fun a => decide (a.record_id = PyVal.vInt r.id)
              && decide (a.alert_type = "Expiring Soon"))
          = [{ id := "expiring_warning_" ++ toString r.id
               record_id := PyVal.vInt r.id
               alert_type := "Expiring Soon"
               severity := "Warning"
               patient_name := PyVal.vStr r.patient_name
               item_name := PyVal.vStr r.drug_item_name
               expiry_date := PyVal.vDate d
               inventory_number := PyVal.vStr r.inventory_number
               location := PyVal.vStr r.location
               message := "Expires in " ++ toString (d - today) ++ " days"
               days_until_expiry := some (d - today)
               stock_count := none }]) := by
  have hsplit : ∀ q : Alert → Bool,
      (get_current_alerts today st).filter q
        = (((criticalQuery today (today + (get_alert_settings st).expiry_critical_days)
              st.inventory).map (fun x => critAlertRow today (toExpiryRow x))).filter q)
          ++ (((warningQuery (today + (get_alert_settings st).expiry_critical_days)
                (today + (get_alert_settings st).expiry_warning_days)
                st.inventory).map (fun x => warnAlertRow today (toExpiryRow x))).filter q)
          ++ ((check_stock_alerts today (get_alert_settings st) st.inventory).filter q) := by
    intro q
    show (check_expiry_alerts today (get_alert_settings st) st.inventory
        ++ check_stock_alerts today (get_alert_settings st) st.inventory).filter q = _
    rw [check_expiry_eval hexp, List.filter_append, List.filter_append]
  constructor
  · intro h1 h2 hack
    rw [hsplit, filter_critMap_by_record hnd hr, filter_warnMap_by_record hnd hr,
        filter_stock_by_record_nil]
    have hcp : criticalPred today (today + (get_alert_settings st).expiry_critical_days) r
        = true := by
      simp [criticalPred, hd, hack, h1, h2]
    have hwp : warningPred (today + (get_alert_settings st).expiry_critical_days)
        (today + (get_alert_settings st).expiry_warning_days) r = false := by
      simp [warningPred, hd]
      intro hlt
      omega
    rw [List.filter_cons, if_pos hcp, List.filter_cons, if_neg (by simp [hwp])]
    simp only [List.filter_nil, List.map_cons, List.map_nil, List.append_nil]
    have hrow : critAlertRow today (toExpiryRow r)
        = { id := "expiring_critical_" ++ toString r.id
            record_id := PyVal.vInt r.id
            alert_type := "Expiring Soon"
            severity := "Critical"
            patient_name := PyVal.vStr r.patient_name
            item_name := PyVal.vStr r.drug_item_name
            expiry_date := PyVal.vDate d
            inventory_number := PyVal.vStr r.inventory_number
            location := PyVal.vStr r.location
            message := "Expires in " ++ toString (d - today) ++ " days"
            days_until_expiry := some (d - today)
            stock_count := none } := by
      simp [critAlertRow, toExpiryRow, pyStr, pyDateSub, hd]
      rfl
    rw [hrow]
  · intro h1 h2 hack
    rw [hsplit, filter_critMap_by_record hnd hr, filter_warnMap_by_record hnd hr,
        filter_stock_by_record_nil]
    have hcp : criticalPred today (today + (get_alert_settings st).expiry_critical_days) r
        = false := by
      simp [criticalPred, hd]
      intro hle
      omega
    have hwp : warningPred (today + (get_alert_settings st).expiry_critical_days)
        (today + (get_alert_settings st).expiry_warning_days) r = true := by
      simp [warningPred, hd, hack, h1, h2]
    rw [List.filter_cons, if_neg (by simp [hcp]), List.filter_cons, if_pos hwp]
    simp only [List.filter_nil, List.map_cons, List.map_nil, List.nil_append, List.append_nil]
    have hrow : warnAlertRow today (toExpiryRow r)
        = { id := "expiring_warning_" ++ toString r.id
            record_id := PyVal.vInt r.id
            alert_type := "Expiring Soon"
            severity := "Warning"
            patient_name := PyVal.vStr r.patient_name
            item_name := PyVal.vStr r.drug_item_name
            expiry_date := PyVal.vDate d
            inventory_number := PyVal.vStr r.inventory_number
            location := PyVal.vStr r.location
            message := "Expires in " ++ toString (d - today) ++ " days"
            days_until_expiry := some (d - today)
            stock_count := none } := by
      simp [warnAlertRow, toExpiryRow, pyStr, pyDateSub, hd]
      rfl
    rw [hrow]

theorem mkExpiredAlert_ok_record_id {today : Int} {item : ExpiryRow} {a : Alert}
    (h : mkExpiredAlert today item = .ok a) : a.record_id = item.c0 := by
  unfold mkExpiredAlert at h
  cases hsub : dateSubFromToday today item.c2 with
  | error e => rw [hsub] at h; cases h
  | ok v => rw [hsub] at h; cases h; rfl

theorem mkCriticalAlert_ok_record_id {today : Int} {item : ExpiryRow} {a : Alert}
    (h : mkCriticalAlert today item = .ok a) : a.record_id = item.c0 := by
  unfold mkCriticalAlert at h
  cases hsub : subDateToday item.c3 today with
  | error e => rw [hsub] at h; cases h
  | ok v => rw [hsub] at h; cases h; rfl

theorem mkWarningAlert_ok_record_id {today : Int} {item : ExpiryRow} {a : Alert}
    (h : mkWarningAlert today item = .ok a) : a.record_id = item.c0 := by
  unfold mkWarningAlert at h
  cases hsub : subDateToday item.c3 today with
  | error e => rw [hsub] at h; cases h
  | ok v => rw [hsub] at h; cases h; rfl

/-- Every alert the expiry check can produce carries an integer record id
(it is built from column 0 of a fetched row). -/
theorem check_expiry_record_id {today : Int} {s : AlertSettings}
    {inv : List InventoryRecord} {a : Alert}
    (ha : a ∈ check_expiry_alerts today s inv) :
    ∃ n : Int, a.record_id = PyVal.vInt n := by
  unfold check_expiry_alerts at ha
  cases hE : check_expiry_alertsE today s inv with
  | error e =>
    rw [hE] at ha
    cases ha
  | ok l =>
    rw [hE] at ha
    unfold check_expiry_alertsE at hE
    cases h1 : mapME (mkExpiredAlert today) ((expiredQuery today inv).map toExpiryRow) with
    | error e1 =>
      simp only [h1] at hE
      cases hE
    | ok expired =>
      cases h2 : mapME (mkCriticalAlert today)
          ((criticalQuery today (today + s.expiry_critical_days) inv).map toExpiryRow) with
      | error e2 =>
        simp only [h1, h2] at hE
        cases hE
      | ok crit =>
        cases h3 : mapME (mkWarningAlert today)
            ((warningQuery (today + s.expiry_critical_days)
              (today + s.expiry_warning_days) inv).map toExpiryRow) with
        | error e3 =>
          simp only [h1, h2, h3] at hE
          cases hE
        | ok warn =>
          simp only [h1, h2, h3] at hE
          cases hE
          rcases List.mem_append.mp ha with hA | hw
          · rcases List.mem_append.mp hA with he | hc
            · rcases mapME_mem h1 a he with ⟨item, hitem, hok⟩
              rcases List.mem_map.mp hitem with ⟨r, _, hrow⟩
              refine ⟨r.id, ?_⟩
              rw [mkExpiredAlert_ok_record_id hok, ← hrow]
              rfl
            · rcases mapME_mem h2 a hc with ⟨item, hitem, hok⟩
              rcases List.mem_map.mp hitem with ⟨r, _, hrow⟩
              refine ⟨r.id, ?_⟩
              rw [mkCriticalAlert_ok_record_id hok, ← hrow]
              rfl
          · rcases mapME_mem h3 a hw with ⟨item, hitem, hok⟩
            rcases List.mem_map.mp hitem with ⟨r, _, hrow⟩
            refine ⟨r.id, ?_⟩
            rw [mkWarningAlert_ok_record_id hok, ← hrow]
            rfl

/-- The stock check emits, for a present (drug, location) group whose count
is at or below the threshold, exactly the one alert of that group. -/
theorem filter_stock_by_group (today : Int) (s : AlertSettings)
    (inv : List InventoryRecord) (drug loc : String)
    (hmem : ∃ r ∈ nonExpiredRecords today inv, r.drug_item_name = drug ∧ r.location = loc)
    (hlow : (groupCount today inv drug loc : Int) ≤ s.low_stock_threshold) :
    (check_stock_alerts today s inv).filter
        (fun a => decide (a.record_id = PyVal.vNone) && decide (a.item_name = PyVal.vStr drug)
          && decide (a.location = PyVal.vStr loc))
      = [mkStockAlert drug loc (groupCount today inv drug loc)] := by
  unfold check_stock_alerts
  rw [List.filter_map]
  have hcong1 : ∀ g ∈ (distinctKeys ((nonExpiredRecords today inv).map
        (fun r => (r.drug_item_name, r.location)))).map
          (fun k => (k.1, k.2, groupCount today inv k.1 k.2)) |>.filter
          (fun g => decide ((g.2.2 : Int) ≤ s.low_stock_threshold)),
      ((fun a : Alert => decide (a.record_id = PyVal.vNone)
          && decide (a.item_name = PyVal.vStr drug) && decide (a.location = PyVal.vStr loc))
        ∘ (fun g : String × String × Nat => mkStockAlert g.1 g.2.1 g.2.2)) g
        = (decide (g.1 = drug) && decide (g.2.1 = loc)) := by
    intro g _
    show (decide (PyVal.vNone = PyVal.vNone) && decide (PyVal.vStr g.1 = PyVal.vStr drug)
        && decide (PyVal.vStr g.2.1 = PyVal.vStr loc)) = _
    by_cases h1 : g.1 = drug <;> by_cases h2 : g.2.1 = loc <;> simp [h1, h2]
  rw [List.filter_congr hcong1, List.filter_filter, List.filter_map]
  have hcong2 : ∀ k ∈ distinctKeys ((nonExpiredRecords today inv).map
        (fun r => (r.drug_item_name, r.location))),
      ((fun g : String × String × Nat =>
          (decide (g.1 = drug) && decide (g.2.1 = loc))
            && decide ((g.2.2 : Int) ≤ s.low_stock_threshold))
        ∘ (fun k : String × String => (k.1, k.2, groupCount today inv k.1 k.2))) k
        = (k == (drug, loc)) := by
    intro k _
    show ((decide (k.1 = drug) && decide (k.2 = loc))
        && decide ((groupCount today inv k.1 k.2 : Int) ≤ s.low_stock_threshold)) = _
    by_cases h1 : k.1 = drug <;> by_cases h2 : k.2 = loc
    · have hk : k = (drug, loc) := Prod.ext h1 h2
      simp [h1, h2, hk, hlow]
    · have hk : k ≠ (drug, loc) := by
        intro hc
        exact h2 (by rw [hc])
      simp [h2, hk]
    · have hk : k ≠ (drug, loc) := by
        intro hc
        exact h1 (by rw [hc])
      simp [h1, hk]
    · have hk : k ≠ (drug, loc) := by
        intro hc
        exact h1 (by rw [hc])
      simp [h1, hk]
  rw [List.filter_congr hcong2]
  have hmem2 : (drug, loc) ∈ (nonExpiredRecords today inv).map
      (fun r => (r.drug_item_name, r.location)) := by
    rcases hmem with ⟨r, hr, hD, hL⟩
    exact List.mem_map.mpr ⟨r, hr, by rw [hD, hL]⟩
  unfold distinctKeys
  rw [dedup_filter_eq_singleton hmem2]
  rfl

/-- C6 counterexample: the claim requires stock evaluation to run only when
enable_stock_alerts is true.  With a current settings row carrying
enable_stock_alerts = false, evaluation still produces a Low Stock alert:
the source never consults the flag. -/
theorem c6_counterexample_flag_ignored :
    (get_alert_settings stNoStock).enable_stock_alerts = false
      ∧ (get_current_alerts day0 stNoStock).any
          (fun a => decide (a.alert_type = "Low Stock")) = true := by
  refine ⟨by decide, by decide⟩

/-- C6 (amended): evaluate_alerts groups all non-expired records by
(drug_item_name, location); every present group with count at or below
low_stock_threshold yields exactly one alert — severity Critical with
alert_type "Out of Stock" for count 0 (vacuous: GROUP BY only yields
non-empty groups), severity Warning for count 1 or 2, Info otherwise, with
alert_type "Low Stock" for positive counts, id "stock_<drug>_<location>"
with spaces replaced — but the evaluation runs UNCONDITIONALLY: the
enable_stock_alerts flag is never consulted. -/
theorem c6_stock_alerts_amended (today : Int) (st : DBState) (drug loc : String)
    (hmem : ∃ r ∈ nonExpiredRecords today st.inventory,
        r.drug_item_name = drug ∧ r.location = loc)
    (hlow : (groupCount today st.inventory drug loc : Int)
        ≤ (get_alert_settings st).low_stock_threshold) :
    ((get_current_alerts today st).filter
        (fun a => decide (a.record_id = PyVal.vNone) && decide (a.item_name = PyVal.vStr drug)
          && decide (a.location = PyVal.vStr loc))
      = [{ id := replaceSpaces ("stock_" ++ drug ++ "_" ++ loc)
           record_id := PyVal.vNone
           alert_type := if groupCount today st.inventory drug loc = 0
                         then "Out of Stock" else "Low Stock"
           severity := if groupCount today st.inventory drug loc = 0 then "Critical"
                       else if groupCount today st.inventory drug loc ≤ 2 then "Warning"
                       else "Info"
           patient_name := PyVal.vStr "Multiple Patients"
           item_name := PyVal.vStr drug
           expiry_date := PyVal.vNone
           inventory_number := PyVal.vStr "Multiple"
           location := PyVal.vStr loc
           message := if groupCount today st.inventory drug loc > 0
                      then "Only " ++ toString (groupCount today st.inventory drug loc)
                        ++ " items remaining"
                      else "Out of stock"
           days_until_expiry := none
           stock_count := some (groupCount today st.inventory drug loc : Int) }])
    ∧ ∀ b : Bool,
        check_stock_alerts today
            { get_alert_settings st with enable_stock_alerts := b } st.inventory
          = check_stock_alerts today (get_alert_settings st) st.inventory := by
  constructor
  · show (check_expiry_alerts today (get_alert_settings st) st.inventory
        ++ check_stock_alerts today (get_alert_settings st) st.inventory).filter _ = _
    rw [List.filter_append]
    have hexpiry : (check_expiry_alerts today (get_alert_settings st) st.inventory).filter
        (fun a => decide (a.record_id = PyVal.vNone) && decide (a.item_name = PyVal.vStr drug)
          && decide (a.location = PyVal.vStr loc)) = [] := by
      refine List.filter_eq_nil_iff.mpr ?_
      intro a ha
      rcases check_expiry_record_id ha with ⟨n, hn⟩
      simp [hn]
    rw [hexpiry, filter_stock_by_group today (get_alert_settings st) st.inventory drug loc
        hmem hlow, List.nil_append]
    rfl
  · intro b
    rfl

/-- Witness for C6 at a concrete store: the (DrugD, LocW) group of one
non-expired record yields exactly its one Low Stock alert. -/
theorem c6_stock_alerts_witness :
    ((get_current_alerts day0 stSeven).filter
        (fun a => decide (a.record_id = PyVal.vNone)
          && decide (a.item_name = PyVal.vStr "DrugD")
          && decide (a.location = PyVal.vStr "LocW"))
      = [{ id := replaceSpaces ("stock_" ++ "DrugD" ++ "_" ++ "LocW")
           record_id := PyVal.vNone
           alert_type := if groupCount day0 stSeven.inventory "DrugD" "LocW" = 0
                         then "Out of Stock" else "Low Stock"
           severity := if groupCount day0 stSeven.inventory "DrugD" "LocW" = 0 then "Critical"
                       else if groupCount day0 stSeven.inventory "DrugD" "LocW" ≤ 2 then "Warning"
                       else "Info"
           patient_name := PyVal.vStr "Multiple Patients"
           item_name := PyVal.vStr "DrugD"
           expiry_date := PyVal.vNone
           inventory_number := PyVal.vStr "Multiple"
           location := PyVal.vStr "LocW"
           message := if groupCount day0 stSeven.inventory "DrugD" "LocW" > 0
                      then "Only " ++ toString (groupCount day0 stSeven.inventory "DrugD" "LocW")
                        ++ " items remaining"
                      else "Out of stock"
           days_until_expiry := none
           stock_count := some (groupCount day0 stSeven.inventory "DrugD" "LocW" : Int) }]) :=
  (c6_stock_alerts_amended day0 stSeven "DrugD" "LocW" (by decide) (by decide)).1

/-- Witness for C7 at a concrete store: the single critical-window record
(expires in four days, defaults critical window of seven) yields exactly
one Critical Expiring Soon alert with days_until_expiry 4. -/
theorem c7_expiring_windows_witness :
    (get_current_alerts day0 stCriticalOnly).filter
        (fun a => decide (a.record_id = PyVal.vInt recCritical.id)
          && decide (a.alert_type = "Expiring Soon"))
      = [{ id := "expiring_critical_" ++ toString recCritical.id
           record_id := PyVal.vInt recCritical.id
           alert_type := "Expiring Soon"
           severity := "Critical"
           patient_name := PyVal.vStr recCritical.patient_name
           item_name := PyVal.vStr recCritical.drug_item_name
           expiry_date := PyVal.vDate (day0 + 4)
           inventory_number := PyVal.vStr recCritical.inventory_number
           location := PyVal.vStr recCritical.location
           message := "Expires in " ++ toString (day0 + 4 - day0) ++ " days"
           days_until_expiry := some (day0 + 4 - day0)
           stock_count := none }] :=
  (c7_expiring_windows_amended day0 stCriticalOnly recCritical (day0 + 4)
    (by decide) (by decide) (by decide) (by decide)).1 (by decide) (by decide) (by decide)

/-! ## Claim C9: the alert summary rendering -/

theorem foldl_string_append (l : List String) :
    ∀ init : String, l.foldl (fun a b => a ++ b) init = init ++ String.join l := by
  induction l with
  | nil =>
    intro init
    show init = init ++ String.join []
    rw [String.join]
    exact (String.append_empty init).symm
  | cons x xs ih =>
    intro init
    show xs.foldl _ (init ++ x) = init ++ String.join (x :: xs)
    rw [ih (init ++ x)]
    have hj : String.join (x :: xs) = x ++ String.join xs := by
      show xs.foldl _ ("" ++ x) = x ++ String.join xs
      rw [ih ("" ++ x), String.empty_append]
    rw [hj, String.append_assoc]

theorem alertLine_foldl (l : List Alert) (init : String) :
    l.foldl (fun acc a => acc ++ alertLine a) init
      = init ++ String.join (l.map alertLine) := by
  have h := List.foldl_map alertLine (fun (a : String) (b : String) => a ++ b) l init
  rw [← h, foldl_string_append]

/-- C9 counterexample: the rendered summary is NOT a pure function of the
alerts alone — the body embeds the current timestamp, so the same alert
list renders differently at two different instants. -/
theorem c9_summary_not_pure_in_alerts :
    alert_summary_content "2024-06-01 10:00:00" [alertSample]
      ≠ alert_summary_content "2024-06-02 10:00:00" [alertSample] := by
  decide

/-- C9 (amended): the rendered summary is a deterministic pure function of
the alerts AND the current timestamp; the subject states the total alert
count and does not depend on the timestamp; for a nonempty alert list the
body states the critical and warning counts, lists the first (at most 10)
critical and the first (at most 10) warning line items, and appends a
truncation marker "... and N more ..." exactly when a group exceeds 10,
with N the number of omitted items of that group. -/
theorem c9_summary_rendering_amended (now now2 : String) (alerts : List Alert) :
    (alert_summary_content now alerts).1
        = "Inventory Alert Summary - " ++ toString alerts.length ++ " Active Alerts"
      ∧ (alert_summary_content now alerts).1 = (alert_summary_content now2 alerts).1
      ∧ ((alerts.filter (fun a => a.severity == "Critical")).take 10).length ≤ 10
      ∧ ((alerts.filter (fun a => a.severity == "Warning")).take 10).length ≤ 10
      ∧ (alerts ≠ [] →
          (alert_summary_content now alerts).2
            = "\n            Inventory Alert Summary - " ++ now
              ++ "\n            \n            Total Active Alerts: " ++ toString alerts.length
              ++ "\n            - Critical: "
              ++ toString (alerts.filter (fun a => a.severity == "Critical")).length
              ++ "\n            - Warnings: "
              ++ toString (alerts.filter (fun a => a.severity == "Warning")).length
              ++ "\n            \n            Critical Alerts:\n            "
              ++ String.join (((alerts.filter (fun a => a.severity == "Critical")).take 10).map alertLine)
              ++ (if (alerts.filter (fun a => a.severity == "Critical")).length > 10
                  then "... and "
                    ++ toString ((alerts.filter (fun a => a.severity == "Critical")).length - 10)
                    ++ " more critical alerts\n"
                  else "")
              ++ "\nWarning Alerts:\n"
              ++ String.join (((alerts.filter (fun a => a.severity == "Warning")).take 10).map alertLine)
              ++ (if (alerts.filter (fun a => a.severity == "Warning")).length > 10
                  then "... and "
                    ++ toString ((alerts.filter (fun a => a.severity == "Warning")).length - 10)
                    ++ " more warnings\n"
                  else "")
              ++ "\nPlease review the inventory system for detailed information.") := by
  refine ⟨?_, ?_, ?_, ?_, ?_⟩
  · unfold alert_summary_content
    by_cases h : alerts.isEmpty <;> simp [h]
  · unfold alert_summary_content
    by_cases h : alerts.isEmpty <;> simp [h]
  · exact (List.length_take 10 _).trans_le (by simp)
  · exact (List.length_take 10 _).trans_le (by simp)
  · intro h
    have hne : alerts.isEmpty = false := by
      cases alerts with
      | nil => exact absurd rfl h
      | cons a as => rfl
    unfold alert_summary_content
    rw [hne]
    simp only [Bool.false_eq_true, if_false, alertLine_foldl]
    by_cases hc : (alerts.filter (fun a => a.severity == "Critical")).length > 10
      <;> by_cases hw : (alerts.filter (fun a => a.severity == "Warning")).length > 10
      <;> simp only [hc, hw, if_true, if_false, String.append_assoc, String.empty_append]

/-- Witness for C9 at one concrete alert list and timestamp. -/
theorem c9_summary_rendering_witness :
    (alert_summary_content "2024-06-01 10:00:00" [alertSample]).2
      = "\n            Inventory Alert Summary - " ++ "2024-06-01 10:00:00"
        ++ "\n            \n            Total Active Alerts: "
        ++ toString ([alertSample] : List Alert).length
        ++ "\n            - Critical: "
        ++ toString (([alertSample] : List Alert).filter (fun a => a.severity == "Critical")).length
        ++ "\n            - Warnings: "
        ++ toString (([alertSample] : List Alert).filter (fun a => a.severity == "Warning")).length
        ++ "\n            \n            Critical Alerts:\n            "
        ++ String.join (((([alertSample] : List Alert).filter
              (fun a => a.severity == "Critical")).take 10).map alertLine)
        ++ (if (([alertSample] : List Alert).filter (fun a => a.severity == "Critical")).length > 10
            then "... and "
              ++ toString ((([alertSample] : List Alert).filter
                  (fun a => a.severity == "Critical")).length - 10)
              ++ " more critical alerts\n"
            else "")
        ++ "\nWarning Alerts:\n"
        ++ String.join (((([alertSample] : List Alert).filter
              (fun a => a.severity == "Warning")).take 10).map alertLine)
        ++ (if (([alertSample] : List Alert).filter (fun a => a.severity == "Warning")).length > 10
            then "... and "
              ++ toString ((([alertSample] : List Alert).filter
                  (fun a => a.severity == "Warning")).length - 10)
              ++ " more warnings\n"
            else "")
        ++ "\nPlease review the inventory system for detailed information." :=
  (c9_summary_rendering_amended "2024-06-01 10:00:00" "other" [alertSample]).2.2.2.2 (by decide)
